import Mathlib

/-!
Formal model of the membership tracker (`src/app.py`).

Python strings are modelled as `List Char`; Python `datetime.date` as the
`Date` structure below with the lexicographic order on (year, month, day);
pandas missing values (`NaN`/`NaT`, tested by `pd.notna`) as `Option`.
Plan catalogs (Python dicts keyed by plan name) are association lists.
-/

/-- Calendar date as in Python `datetime.date`: year, month, day. -/
structure Date where
  year : Nat
  month : Nat
  day : Nat
deriving DecidableEq

/-- Python date comparison `a <= b`: lexicographic on (year, month, day). -/
def dateLe (a b : Date) : Prop :=
  a.year < b.year ∨
    (a.year = b.year ∧ (a.month < b.month ∨ (a.month = b.month ∧ a.day ≤ b.day)))

instance (a b : Date) : Decidable (dateLe a b) := by
  unfold dateLe
  exact inferInstance

/-- Python date comparison `a < b`: lexicographic on (year, month, day). -/
def dateLt (a b : Date) : Prop :=
  a.year < b.year ∨
    (a.year = b.year ∧ (a.month < b.month ∨ (a.month = b.month ∧ a.day < b.day)))

instance (a b : Date) : Decidable (dateLt a b) := by
  unfold dateLt
  exact inferInstance

/-- Gregorian leap-year rule used by Python's `datetime`. -/
def isLeap (y : Nat) : Prop :=
  y % 4 = 0 ∧ (y % 100 ≠ 0 ∨ y % 400 = 0)

instance (y : Nat) : Decidable (isLeap y) := by
  unfold isLeap
  exact inferInstance

/-- Number of days in a month of a given year, as in the Gregorian calendar. -/
def daysInMonth (y m : Nat) : Nat :=
  if m = 2 then (if isLeap y then 29 else 28)
  else if m = 4 ∨ m = 6 ∨ m = 9 ∨ m = 11 then 30
  else 31

/-- Validity of a `Date` as a real calendar date (what Python's `date`
constructor accepts, years unbounded above). -/
def isValidDate (d : Date) : Prop :=
  1 ≤ d.year ∧ 1 ≤ d.month ∧ d.month ≤ 12 ∧ 1 ≤ d.day ∧ d.day ≤ daysInMonth d.year d.month

instance (d : Date) : Decidable (isValidDate d) := by
  unfold isValidDate
  exact inferInstance

/-- Successor day in the calendar (used to model `timedelta(days=n)` addition). -/
def nextDay (d : Date) : Date :=
  if d.day < daysInMonth d.year d.month then ⟨d.year, d.month, d.day + 1⟩
  else if d.month < 12 then ⟨d.year, d.month + 1, 1⟩
  else ⟨d.year + 1, 1, 1⟩

/-- Python `d + timedelta(days=n)`: advance `n` calendar days. -/
def addDays : Date → Nat → Date
  | d, 0 => d
  | d, n + 1 => addDays (nextDay d) n

/-- Model of `soon = date.today() + timedelta(days=30)` (src/app.py line 353). -/
def soonDate (today : Date) : Date :=
  addDays today 30

/-- Cell-level status derivation applied by `refresh_status` (src/app.py
lines 117-122) to every `EndDate` cell:
`"Active" if pd.notna(x) and x >= today else ("Expired" if pd.notna(x) else "Unknown")`. -/
def refresh_status_cell (x : Option Date) (today : Date) : String :=
  match x with
  | some d => if dateLe today d then "Active" else "Expired"
  | none => "Unknown"

/-- Model of `plan_end_date` (src/app.py lines 124-129):
`months = plans_dict.get(plan_name, 12)`, then year/month arithmetic with the
day clamped to 28. -/
def plan_end_date (start : Date) (plan_name : String) (plans_dict : List (String × Nat)) : Date :=
  let months := (plans_dict.lookup plan_name).getD 12
  { year := start.year + (start.month - 1 + months) / 12
    month := (start.month - 1 + months) % 12 + 1
    day := min start.day 28 }

/-- Decimal digit as a character, as produced by Python's `format`. -/
def digitChar (d : Nat) : Char :=
  match d with
  | 0 => '0'
  | 1 => '1'
  | 2 => '2'
  | 3 => '3'
  | 4 => '4'
  | 5 => '5'
  | 6 => '6'
  | 7 => '7'
  | 8 => '8'
  | 9 => '9'
  | _ => '*'

/-- Big-endian decimal digits of `n`, with explicit fuel (first argument) so the
recursion is structural; `decimalDigits` supplies fuel `n`, which suffices. -/
def decimalDigitsAux : Nat → Nat → List Char
  | 0, _ => []
  | _ + 1, 0 => []
  | fuel + 1, n + 1 =>
    decimalDigitsAux fuel ((n + 1) / 10) ++ [digitChar ((n + 1) % 10)]

/-- Big-endian decimal digits of a positive `n` (empty for `n = 0`). -/
def decimalDigits (n : Nat) : List Char :=
  decimalDigitsAux n n

/-- Python `f"{n:04d}"`: decimal digits of `n` left-padded with `'0'` to width 4. -/
def pad4 (n : Nat) : List Char :=
  List.replicate (4 - (decimalDigits n).length) '0' ++ decimalDigits n

/-- Python `int(s)` on a string of decimal digits. -/
def charsToNat (l : List Char) : Nat :=
  l.foldl (fun a c => 10 * a + (c.toNat - 48)) 0

/-- Python `v.startswith("M")` on the character-list model. -/
def startsWithM (v : List Char) : Bool :=
  match v with
  | 'M' :: _ => true
  | _ => false

/-- Python `s.isdigit()`: nonempty and all decimal digits. -/
def isdigitStr (l : List Char) : Bool :=
  !l.isEmpty && l.all Char.isDigit

/-- Filter condition of the comprehension in `generate_member_id`:
`v.startswith("M") and v[1:].isdigit()`. -/
def conformsId (v : List Char) : Bool :=
  startsWithM v && isdigitStr (v.drop 1)

/-- Python `int(v[1:])` for a conforming ID. -/
def suffixNum (v : List Char) : Nat :=
  charsToNat (v.drop 1)

/-- Python `max` over a list of naturals (agrees with `max(nums)` on nonempty lists). -/
def maxNum (l : List Nat) : Nat :=
  l.foldl max 0

/-- Model of `generate_member_id` (src/app.py lines 131-134):
`nums = [int(v[1:]) for v in existing if v.startswith("M") and v[1:].isdigit()]`,
then `f"M{max(nums)+1:04d}"` if `nums` is nonempty, else the literal `"M001"`. -/
def generate_member_id (existing : List (List Char)) : List Char :=
  let nums := (existing.filter conformsId).map suffixNum
  if nums.isEmpty then 'M' :: ['0', '0', '1'] else 'M' :: pad4 (maxNum nums + 1)

/-- Status computed by `add_member_to_db` (src/app.py line 159):
`"Active" if end_date >= date.today() else "Expired"`. -/
def add_member_status (end_date today : Date) : String :=
  if dateLe today end_date then "Active" else "Expired"

/-- Status computed by `update_member_in_db` (src/app.py line 171):
`"Active" if end_date >= date.today() else "Expired"`. -/
def update_member_status (end_date today : Date) : String :=
  if dateLe today end_date then "Active" else "Expired"

/-- Python `str.strip`: drop whitespace from both ends. -/
def stripChars (l : List Char) : List Char :=
  (((l.dropWhile Char.isWhitespace).reverse).dropWhile Char.isWhitespace).reverse

/-- Python `str.lower` on the character-list model. -/
def lowerChars (l : List Char) : List Char :=
  l.map Char.toLower

/-- ExpiringSoon cell (src/app.py line 354, and the table filter at lines
400-403): `x <= soon if pd.notna(x) else False` with `soon = today + 30 days`. -/
def expiring_soon_flag (x : Option Date) (today : Date) : Bool :=
  match x with
  | some d => decide (dateLe d (soonDate today))
  | none => false

/-- Start date the edit form writes back (src/app.py line 548):
`sel_row['StartDate'] if pd.notna(sel_row['StartDate']) else date.today()`. -/
def edit_saved_start_date (selStart : Option Date) (today : Date) : Date :=
  match selStart with
  | some d => d
  | none => today

/-- StartDate stored for the member after the edit path saves
(`update_member_in_db` sets `StartDate` to the value passed at line 603). -/
def start_date_after_edit (selStart : Option Date) (today : Date) : Option Date :=
  some (edit_saved_start_date selStart today)

/-- Quick-renew logic of the edit form save handler (src/app.py lines 587-595):
`new_end = end_date; if apply_quick and renew_months > 0:` recompute from
`base = end_date if pd.notna(end_date) else today` with the month arithmetic
and day clamp. -/
def quick_renew_new_end (end_date : Option Date) (apply_quick : Bool)
    (renew_months : Nat) (today : Date) : Option Date :=
  if apply_quick = true ∧ 0 < renew_months then
    let base := end_date.getD today
    some { year := base.year + (base.month - 1 + renew_months) / 12
           month := (base.month - 1 + renew_months) % 12 + 1
           day := min base.day 28 }
  else end_date

/-- Member record as loaded from the `members` table (nullable columns are
`Option`; `MemberID` is the primary key and never null). -/
structure Member where
  memberId : List Char
  name : List Char
  email : Option (List Char)
  phone : Option (List Char)
  startDate : Option Date
  endDate : Option Date
  planType : Option String
  status : String
  notes : Option (List Char)

/-- Outcome of an add-member form submission. -/
inductive AddOutcome
  | missingFields
  | emailExists
  | idExists
  | inserted
deriving DecidableEq

/-- Model of the add-member submit handler (src/app.py lines 467-493):
auto-generate the ID when the trimmed ID is blank, then validate (required
fields, case-insensitive email uniqueness among non-null stored emails,
ID uniqueness) and insert on success. Returns the outcome and the member
list after the operation. -/
def add_member_submit (members : List Member) (member_id name email phone : List Char)
    (start_date end_date : Date) (today : Date) (plan_choice : String)
    (notes : List Char) : AddOutcome × List Member :=
  let mid := if stripChars member_id = [] then
    generate_member_id (members.map Member.memberId) else member_id
  let existing_emails := (members.filterMap Member.email).map lowerChars
  let existing_ids := members.map Member.memberId
  if stripChars mid = [] ∨ stripChars name = [] then (.missingFields, members)
  else if stripChars email ≠ [] ∧ lowerChars (stripChars email) ∈ existing_emails then
    (.emailExists, members)
  else if stripChars mid ∈ existing_ids then (.idExists, members)
  else
    (.inserted, members ++
      [{ memberId := stripChars mid
         name := stripChars name
         email := some (stripChars email)
         phone := some (stripChars phone)
         startDate := some start_date
         endDate := some end_date
         planType := some plan_choice
         status := add_member_status end_date today
         notes := some (stripChars notes) }])

/-- Concrete member record used to instantiate the general theorems. -/
def sampleMember : Member :=
  { memberId := "M0001".toList
    name := "Ann".toList
    email := some "a@b.c".toList
    phone := none
    startDate := none
    endDate := none
    planType := none
    status := "Active"
    notes := none }

lemma dateLe_refl (a : Date) : dateLe a a := by
  unfold dateLe
  omega

lemma not_dateLe_of_dateLt (a b : Date) (h : dateLt a b) : ¬ dateLe b a := by
  unfold dateLt at h
  unfold dateLe
  omega

lemma daysInMonth_ge_28 (y m : Nat) : 28 ≤ daysInMonth y m := by
  unfold daysInMonth
  split
  · split <;> omega
  · split <;> omega

/-- C1: `refresh_status` returns `"Active"` when the end date is present and
`end_date >= today`, `"Expired"` when present and `end_date < today`, and
`"Unknown"` when absent; in particular today's own date is Active, the day
before today is Expired, and a missing end date is Unknown. -/
theorem C1_refresh_status (e t : Date) :
    (dateLe t e → refresh_status_cell (some e) t = "Active") ∧
    (dateLt e t → refresh_status_cell (some e) t = "Expired") ∧
    refresh_status_cell none t = "Unknown" ∧
    refresh_status_cell (some t) t = "Active" := by
  refine ⟨?_, ?_, rfl, ?_⟩
  · intro h
    simp [refresh_status_cell, h]
  · intro h
    simp [refresh_status_cell, not_dateLe_of_dateLt e t h]
  · simp [refresh_status_cell, dateLe_refl t]

theorem C1_refresh_status_witness :
    refresh_status_cell (some ⟨2024, 6, 15⟩) ⟨2024, 6, 15⟩ = "Active" ∧
    refresh_status_cell (some ⟨2024, 6, 14⟩) ⟨2024, 6, 15⟩ = "Expired" ∧
    refresh_status_cell none ⟨2024, 6, 15⟩ = "Unknown" :=
  ⟨(C1_refresh_status ⟨2024, 6, 15⟩ ⟨2024, 6, 15⟩).1 (by decide),
   (C1_refresh_status ⟨2024, 6, 14⟩ ⟨2024, 6, 15⟩).2.1 (by decide),
   (C1_refresh_status ⟨2024, 6, 14⟩ ⟨2024, 6, 15⟩).2.2.1⟩

/-- C2: for every valid start date, `plan_end_date` returns exactly the
year/month/day given by the month arithmetic with the day clamped to
`min(start.day, 28)`; the result's day is at most 28 and the result is a valid
calendar date; and `plan_end_date(2024-01-31, "Bronze", {Bronze: 1}) = 2024-02-28`. -/
theorem C2_plan_end_date (start : Date) (p : String) (c : List (String × Nat))
    (h : isValidDate start) :
    plan_end_date start p c =
      { year := start.year + (start.month - 1 + ((c.lookup p).getD 12)) / 12
        month := (start.month - 1 + ((c.lookup p).getD 12)) % 12 + 1
        day := min start.day 28 } ∧
    (plan_end_date start p c).day ≤ 28 ∧
    isValidDate (plan_end_date start p c) ∧
    plan_end_date ⟨2024, 1, 31⟩ "Bronze" [("Bronze", 1)] = ⟨2024, 2, 28⟩ := by
  refine ⟨rfl, ?_, ?_, by decide⟩
  · simp only [plan_end_date]
    omega
  · unfold isValidDate at h ⊢
    simp only [plan_end_date]
    have h28 := daysInMonth_ge_28 (start.year + (start.month - 1 + ((c.lookup p).getD 12)) / 12)
      ((start.month - 1 + ((c.lookup p).getD 12)) % 12 + 1)
    omega

theorem C2_plan_end_date_witness :
    plan_end_date ⟨2024, 1, 31⟩ "Bronze" [("Bronze", 1)] = ⟨2024, 2, 28⟩ ∧
    (plan_end_date ⟨2024, 1, 31⟩ "Bronze" [("Bronze", 1)]).day ≤ 28 ∧
    isValidDate (plan_end_date ⟨2024, 1, 31⟩ "Bronze" [("Bronze", 1)]) :=
  ⟨(C2_plan_end_date ⟨2024, 1, 31⟩ "Bronze" [("Bronze", 1)] (by decide)).2.2.2,
   (C2_plan_end_date ⟨2024, 1, 31⟩ "Bronze" [("Bronze", 1)] (by decide)).2.1,
   (C2_plan_end_date ⟨2024, 1, 31⟩ "Bronze" [("Bronze", 1)] (by decide)).2.2.1⟩

/-- C3: when the plan name is absent from the catalog, `plan_end_date` does not
fail and behaves exactly as with a 12-month duration; in particular
`plan_end_date(2024-01-01, "Nonexistent", {Bronze: 3}) = 2025-01-01`. -/
theorem C3_plan_end_date_default (start : Date) (name : String) (c : List (String × Nat))
    (h : c.lookup name = none) :
    plan_end_date start name c = plan_end_date start name [(name, 12)] ∧
    plan_end_date ⟨2024, 1, 1⟩ "Nonexistent" [("Bronze", 3)] = ⟨2025, 1, 1⟩ := by
  refine ⟨?_, by decide⟩
  simp [plan_end_date, h, List.lookup]

theorem C3_plan_end_date_default_witness :
    plan_end_date ⟨2024, 1, 1⟩ "Nonexistent" [("Bronze", 3)] =
      plan_end_date ⟨2024, 1, 1⟩ "Nonexistent" [("Nonexistent", 12)] ∧
    plan_end_date ⟨2024, 1, 1⟩ "Nonexistent" [("Bronze", 3)] = ⟨2025, 1, 1⟩ :=
  ⟨(C3_plan_end_date_default ⟨2024, 1, 1⟩ "Nonexistent" [("Bronze", 3)] (by decide)).1,
   (C3_plan_end_date_default ⟨2024, 1, 1⟩ "Nonexistent" [("Bronze", 3)] (by decide)).2⟩

/-- C4: `generate_member_id` parses the conforming IDs and returns the
zero-padded successor of their maximum (`["M0001","M0003","X9"]` give
`"M0004"`), but on an input with no conforming ID it returns the literal
`"M001"`, not the `"M0001"` the specification states. -/
theorem C4_generate_member_id :
    generate_member_id [] = "M001".toList ∧
    generate_member_id ["M0001".toList, "M0003".toList, "X9".toList] = "M0004".toList ∧
    "M001".toList ≠ "M0001".toList := by
  refine ⟨by decide, ?_, by decide⟩
  set_option maxRecDepth 10000 in decide

/-- C5: the quick-renew computation leaves the end date unchanged when the
requested month count is 0; when applied with a positive month count it
performs exactly the `plan_end_date` arithmetic on the current end date
(falling back to today when absent); and renewing 2024-11-30 by 3 months
gives 2025-02-28. -/
theorem C5_quick_renew (e : Option Date) (q : Bool) (m : Nat) (t : Date) (p : String) :
    quick_renew_new_end e q 0 t = e ∧
    (q = true → 0 < m →
      quick_renew_new_end e q m t = some (plan_end_date (e.getD t) p [(p, m)])) ∧
    (∀ t2 : Date, quick_renew_new_end (some ⟨2024, 11, 30⟩) true 3 t2 = some ⟨2025, 2, 28⟩) := by
  refine ⟨?_, ?_, ?_⟩
  · simp [quick_renew_new_end]
  · intro hq hm
    simp [quick_renew_new_end, hq, hm, plan_end_date, List.lookup]
  · intro t2
    simp [quick_renew_new_end]

theorem C5_quick_renew_witness :
    quick_renew_new_end (some ⟨2024, 11, 30⟩) true 3 ⟨2024, 6, 1⟩ =
      some (plan_end_date ⟨2024, 11, 30⟩ "Gold" [("Gold", 3)]) ∧
    quick_renew_new_end (some ⟨2024, 11, 30⟩) true 0 ⟨2024, 6, 1⟩ = some ⟨2024, 11, 30⟩ :=
  ⟨((C5_quick_renew (some ⟨2024, 11, 30⟩) true 3 ⟨2024, 6, 1⟩ "Gold").2.1 rfl (by decide)),
   (C5_quick_renew (some ⟨2024, 11, 30⟩) true 3 ⟨2024, 6, 1⟩ "Gold").1⟩

/-- C6 counterexample: the claim that an edit always preserves the member's
StartDate fails when the stored StartDate is absent — the edit path then
writes today's date, so the StartDate after the edit differs from the one
before. -/
theorem C6_start_date_cex :
    start_date_after_edit none ⟨2024, 1, 1⟩ ≠ none := by
  decide

/-- C6 (amended): for every member whose StartDate is present, the edit/renew
save path writes the original StartDate back unchanged; when the StartDate is
absent it is replaced by today's date. -/
theorem C6_start_date_preserved (d t : Date) :
    start_date_after_edit (some d) t = some d ∧
    start_date_after_edit none t = some t :=
  ⟨rfl, rfl⟩

/-- C7: an add-member submission whose trimmed email is non-empty and equal,
case-insensitively, to a stored member email is rejected and the member list
is unchanged; a submission with an empty trimmed email is never rejected on
email-uniqueness grounds. -/
theorem C7_email_uniqueness :
    (∀ (members : List Member) (mid nm em ph : List Char) (sd ed td : Date)
        (pc : String) (nt : List Char),
      stripChars em ≠ [] →
      lowerChars (stripChars em) ∈ (members.filterMap Member.email).map lowerChars →
      (add_member_submit members mid nm em ph sd ed td pc nt).1 ≠ AddOutcome.inserted ∧
      (add_member_submit members mid nm em ph sd ed td pc nt).2 = members) ∧
    (∀ (members : List Member) (mid nm em ph : List Char) (sd ed td : Date)
        (pc : String) (nt : List Char),
      stripChars em = [] →
      (add_member_submit members mid nm em ph sd ed td pc nt).1 ≠ AddOutcome.emailExists) := by
  constructor
  · intro members mid nm em ph sd ed td pc nt hne hmem
    unfold add_member_submit
    by_cases h1 :
        stripChars (if stripChars mid = [] then
          generate_member_id (members.map Member.memberId) else mid) = [] ∨
        stripChars nm = []
    · simp [h1]
    · simp [h1, hne, hmem]
  · intro members mid nm em ph sd ed td pc nt he
    unfold add_member_submit
    by_cases h1 :
        stripChars (if stripChars mid = [] then
          generate_member_id (members.map Member.memberId) else mid) = [] ∨
        stripChars nm = []
    · simp [h1]
    · simp only [h1, he, if_false, ne_eq, not_true_eq_false, false_and, if_neg,
        not_false_eq_true]
      split <;> split <;> simp

theorem C7_email_uniqueness_witness :
    ((add_member_submit [sampleMember] "M0009".toList "Bob".toList "A@B.C".toList []
        ⟨2024, 1, 1⟩ ⟨2024, 4, 1⟩ ⟨2024, 1, 1⟩ "Bronze" []).1 ≠ AddOutcome.inserted ∧
      (add_member_submit [sampleMember] "M0009".toList "Bob".toList "A@B.C".toList []
        ⟨2024, 1, 1⟩ ⟨2024, 4, 1⟩ ⟨2024, 1, 1⟩ "Bronze" []).2 = [sampleMember]) ∧
    (add_member_submit [sampleMember] "M0009".toList "Bob".toList [] []
      ⟨2024, 1, 1⟩ ⟨2024, 4, 1⟩ ⟨2024, 1, 1⟩ "Bronze" []).1 ≠ AddOutcome.emailExists :=
  ⟨C7_email_uniqueness.1 [sampleMember] "M0009".toList "Bob".toList "A@B.C".toList []
      ⟨2024, 1, 1⟩ ⟨2024, 4, 1⟩ ⟨2024, 1, 1⟩ "Bronze" [] (by decide) (by decide),
   C7_email_uniqueness.2 [sampleMember] "M0009".toList "Bob".toList [] []
      ⟨2024, 1, 1⟩ ⟨2024, 4, 1⟩ ⟨2024, 1, 1⟩ "Bronze" [] rfl⟩

lemma charsToNat_cons_zero (l : List Char) : charsToNat ('0' :: l) = charsToNat l := by
  simp [charsToNat]

lemma charsToNat_replicate_zero (k : Nat) (l : List Char) :
    charsToNat (List.replicate k '0' ++ l) = charsToNat l := by
  induction k with
  | zero => simp
  | succ k ih => simpa [List.replicate_succ, charsToNat_cons_zero] using ih

lemma charsToNat_append_single (l : List Char) (c : Char) :
    charsToNat (l ++ [c]) = 10 * charsToNat l + (c.toNat - 48) := by
  simp [charsToNat, List.foldl_append]

lemma digitChar_toNat (d : Nat) (h : d < 10) : (digitChar d).toNat = 48 + d := by
  interval_cases d <;> rfl

lemma digitChar_isDigit (d : Nat) (h : d < 10) : (digitChar d).isDigit = true := by
  interval_cases d <;> rfl

lemma charsToNat_decimalDigitsAux (fuel n : Nat) (h : n ≤ fuel) :
    charsToNat (decimalDigitsAux fuel n) = n := by
  induction fuel generalizing n with
  | zero =>
    have : n = 0 := Nat.le_zero.mp h
    subst this
    rfl
  | succ f ih =>
    cases n with
    | zero => rfl
    | succ n =>
      have hd : (n + 1) / 10 ≤ f := by omega
      rw [decimalDigitsAux, charsToNat_append_single, ih _ hd,
        digitChar_toNat _ (Nat.mod_lt _ (by norm_num))]
      omega

lemma charsToNat_decimalDigits (n : Nat) : charsToNat (decimalDigits n) = n :=
  charsToNat_decimalDigitsAux n n (Nat.le_refl n)

lemma charsToNat_pad4 (n : Nat) : charsToNat (pad4 n) = n := by
  rw [pad4, charsToNat_replicate_zero, charsToNat_decimalDigits]

lemma decimalDigits_ne_nil (n : Nat) (h : 0 < n) : decimalDigits n ≠ [] := by
  cases n with
  | zero => omega
  | succ n =>
    rw [decimalDigits, decimalDigitsAux]
    simp

lemma decimalDigitsAux_all_digit (fuel n : Nat) :
    (decimalDigitsAux fuel n).all Char.isDigit = true := by
  induction fuel generalizing n with
  | zero => rfl
  | succ f ih =>
    cases n with
    | zero => rfl
    | succ n =>
      rw [decimalDigitsAux]
      simp only [List.all_append, Bool.and_eq_true, ih]
      refine ⟨trivial, ?_⟩
      simp [digitChar_isDigit _ (Nat.mod_lt _ (by norm_num : (0:Nat) < 10))]

lemma pad4_ne_nil (n : Nat) (h : 0 < n) : pad4 n ≠ [] := by
  rw [pad4]
  intro hc
  rcases List.append_eq_nil.mp hc with ⟨_, h2⟩
  exact decimalDigits_ne_nil n h h2

lemma pad4_all_digit (n : Nat) : (pad4 n).all Char.isDigit = true := by
  rw [pad4]
  simp only [List.all_append, Bool.and_eq_true]
  constructor
  · simp [List.all_eq_true]
  · exact decimalDigitsAux_all_digit n n

lemma conformsId_M_digits (l : List Char) (h1 : l ≠ []) (h2 : l.all Char.isDigit = true) :
    conformsId ('M' :: l) = true := by
  simp [conformsId, startsWithM, isdigitStr, h1, h2]

lemma suffixNum_M (l : List Char) : suffixNum ('M' :: l) = charsToNat l := by
  simp [suffixNum]

lemma le_foldl_max_init (l : List Nat) (acc : Nat) : acc ≤ l.foldl max acc := by
  induction l generalizing acc with
  | nil => exact Nat.le_refl acc
  | cons a t ih => exact Nat.le_trans (Nat.le_max_left acc a) (ih (max acc a))

lemma mem_le_foldl_max (l : List Nat) (acc x : Nat) (h : x ∈ l) : x ≤ l.foldl max acc := by
  induction l generalizing acc with
  | nil => cases h
  | cons a t ih =>
    rcases List.mem_cons.mp h with rfl | hm
    · exact Nat.le_trans (Nat.le_max_right acc x) (le_foldl_max_init t (max acc x))
    · exact ih (max acc a) hm

lemma mem_le_maxNum (l : List Nat) (x : Nat) (h : x ∈ l) : x ≤ maxNum l :=
  mem_le_foldl_max l 0 x h

/-- Every ID returned by `generate_member_id` is new: it never occurs among the
existing IDs it was computed from. -/
lemma generate_member_id_not_mem (existing : List (List Char)) :
    generate_member_id existing ∉ existing := by
  intro hmem
  unfold generate_member_id at hmem
  by_cases he : ((existing.filter conformsId).map suffixNum).isEmpty
  · rw [if_pos he] at hmem
    have hc : conformsId ('M' :: ['0', '0', '1']) = true := by decide
    have hin : suffixNum ('M' :: ['0', '0', '1']) ∈ (existing.filter conformsId).map suffixNum :=
      List.mem_map_of_mem _ (List.mem_filter.mpr ⟨hmem, hc⟩)
    rw [List.isEmpty_iff] at he
    rw [he] at hin
    cases hin
  · rw [if_neg he] at hmem
    set M := maxNum ((existing.filter conformsId).map suffixNum) with hM
    have hc : conformsId ('M' :: pad4 (M + 1)) = true :=
      conformsId_M_digits _ (pad4_ne_nil _ (Nat.succ_pos M)) (pad4_all_digit _)
    have hin : suffixNum ('M' :: pad4 (M + 1)) ∈ (existing.filter conformsId).map suffixNum :=
      List.mem_map_of_mem _ (List.mem_filter.mpr ⟨hmem, hc⟩)
    rw [suffixNum_M, charsToNat_pad4] at hin
    have := mem_le_maxNum _ _ hin
    omega

/-- C8: member-ID uniqueness is preserved by the add-member path — a
submission whose trimmed nonblank ID already exists is rejected with the
member list unchanged, an auto-generated ID never equals any existing ID,
and any record actually inserted has an ID not present before. -/
theorem C8_member_id_uniqueness :
    (∀ (members : List Member) (mid nm em ph : List Char) (sd ed td : Date)
        (pc : String) (nt : List Char),
      stripChars mid ≠ [] →
      stripChars mid ∈ members.map Member.memberId →
      (add_member_submit members mid nm em ph sd ed td pc nt).1 ≠ AddOutcome.inserted ∧
      (add_member_submit members mid nm em ph sd ed td pc nt).2 = members) ∧
    (∀ existing : List (List Char), generate_member_id existing ∉ existing) ∧
    (∀ (members : List Member) (mid nm em ph : List Char) (sd ed td : Date)
        (pc : String) (nt : List Char),
      (add_member_submit members mid nm em ph sd ed td pc nt).1 = AddOutcome.inserted →
      ∃ r : Member,
        (add_member_submit members mid nm em ph sd ed td pc nt).2 = members ++ [r] ∧
        r.memberId ∉ members.map Member.memberId) := by
  refine ⟨?_, generate_member_id_not_mem, ?_⟩
  · intro members mid nm em ph sd ed td pc nt hne hmem
    unfold add_member_submit
    simp only [hne, ite_false]
    split
    · exact ⟨by simp, rfl⟩
    · split
      · exact ⟨by simp, rfl⟩
      · exact ⟨by simp, rfl⟩
  · intro members mid nm em ph sd ed td pc nt h
    unfold add_member_submit at h ⊢
    by_cases hm : stripChars mid = []
    · simp only [hm, ite_true] at h ⊢
      split at h
      · simp at h
      · split at h
        · simp at h
        · split at h
          · simp at h
          · rename_i hc1 hc2 hc3
            simp only [if_neg hc1, if_neg hc2, if_neg hc3]
            exact ⟨_, rfl, hc3⟩
    · simp only [hm, ite_false] at h ⊢
      split at h
      · simp at h
      · split at h
        · simp at h
        · split at h
          · simp at h
          · rename_i hc1 hc2 hc3
            simp only [if_neg hc1, if_neg hc2, if_neg hc3]
            exact ⟨_, rfl, hc3⟩

theorem C8_member_id_uniqueness_witness :
    ((add_member_submit [sampleMember] "M0001".toList "Bob".toList "b@c.d".toList []
        ⟨2024, 1, 1⟩ ⟨2024, 4, 1⟩ ⟨2024, 1, 1⟩ "Bronze" []).1 ≠ AddOutcome.inserted ∧
      (add_member_submit [sampleMember] "M0001".toList "Bob".toList "b@c.d".toList []
        ⟨2024, 1, 1⟩ ⟨2024, 4, 1⟩ ⟨2024, 1, 1⟩ "Bronze" []).2 = [sampleMember]) ∧
    generate_member_id ["M0001".toList] ∉ (["M0001".toList] : List (List Char)) ∧
    (∃ r : Member,
      (add_member_submit [sampleMember] "M0002".toList "Bob".toList "b@c.d".toList []
        ⟨2024, 1, 1⟩ ⟨2024, 4, 1⟩ ⟨2024, 1, 1⟩ "Bronze" []).2 = [sampleMember] ++ [r] ∧
      r.memberId ∉ [sampleMember].map Member.memberId) :=
  ⟨C8_member_id_uniqueness.1 [sampleMember] "M0001".toList "Bob".toList "b@c.d".toList []
      ⟨2024, 1, 1⟩ ⟨2024, 4, 1⟩ ⟨2024, 1, 1⟩ "Bronze" [] (by decide) (by decide),
   C8_member_id_uniqueness.2.1 ["M0001".toList],
   C8_member_id_uniqueness.2.2 [sampleMember] "M0002".toList "Bob".toList "b@c.d".toList []
      ⟨2024, 1, 1⟩ ⟨2024, 4, 1⟩ ⟨2024, 1, 1⟩ "Bronze" [] (by decide)⟩

/-- C9 counterexample: the claim that a member is flagged as expiring soon
exactly when `today <= end_date <= today + 30 days` fails — the code's
condition has no lower bound, so a member whose end date is already in the
past (here the day before today) is flagged even though `today <= end_date`
is false. -/
theorem C9_expiring_soon_cex :
    expiring_soon_flag (some ⟨2024, 6, 14⟩) ⟨2024, 6, 15⟩ = true ∧
    ¬ dateLe ⟨2024, 6, 15⟩ ⟨2024, 6, 14⟩ := by
  constructor
  · set_option maxRecDepth 4000 in decide
  · decide

/-- C9 (amended): a member is flagged as expiring soon exactly when the end
date is present and `end_date <= today + 30 days` — with no lower bound, so
already-expired members are flagged too; members with an absent end date are
never flagged. -/
theorem C9_expiring_soon (x : Option Date) (t : Date) :
    (expiring_soon_flag x t = true ↔ ∃ d, x = some d ∧ dateLe d (soonDate t)) ∧
    expiring_soon_flag none t = false := by
  constructor
  · cases x with
    | none => simp [expiring_soon_flag]
    | some d => simp [expiring_soon_flag]
  · rfl

/-- C10: on the add-member and update-member write paths the stored status is
`"Active"` exactly when `end_date >= today`, `"Expired"` otherwise, the two
paths agree, and neither ever stores `"Unknown"`. -/
theorem C10_write_status (e t : Date) :
    (add_member_status e t = "Active" ↔ dateLe t e) ∧
    (add_member_status e t = "Expired" ↔ ¬ dateLe t e) ∧
    add_member_status e t ≠ "Unknown" ∧
    update_member_status e t = add_member_status e t := by
  unfold add_member_status update_member_status
  by_cases h : dateLe t e
  · simp [h]
  · simp [h]
